import Mathlib

/-!
Verification of the auth_service credential and token lifecycle engine
(src/auth_service). The definitions below are a shallow embedding of the
request handlers in main.py, the helpers in utils.py and auth.py, and the
table shapes in database.py. Times are modelled in whole seconds, which
matches the granularity of the JWT exp claim (python-jose truncates the
expiry datetime to whole seconds when encoding); JWT encoding is
deterministic, so two tokens with the same claims are the same string.
Database writes auto-commit individually (no transactions in the source),
so every handler returns its outcome together with the post-state.
-/

namespace AuthService

/-- Settings.ACCESS_TOKEN_EXPIRE_MINUTES from config.py. -/
def ACCESS_TOKEN_EXPIRE_MINUTES : Nat := 30

/-- Settings.REFRESH_TOKEN_EXPIRE_DAYS from config.py. -/
def REFRESH_TOKEN_EXPIRE_DAYS : Nat := 7

/-- Settings.OTP_EXPIRE_MINUTES from config.py. -/
def OTP_EXPIRE_MINUTES : Nat := 5

/-- Access token lifetime in seconds. -/
def ACCESS_TTL : Nat := ACCESS_TOKEN_EXPIRE_MINUTES * 60

/-- Refresh token lifetime in seconds. -/
def REFRESH_TTL : Nat := REFRESH_TOKEN_EXPIRE_DAYS * 24 * 60 * 60

/-- OTP lifetime in seconds. -/
def OTP_TTL : Nat := OTP_EXPIRE_MINUTES * 60

/-- The digit value of a character, none when it is not a decimal digit. -/
def charDigit? (c : Char) : Option Nat :=
  if 48 ≤ c.toNat ∧ c.toNat ≤ 57 then some (c.toNat - 48) else none

/-- Accumulating decimal parse of a character list; none on the first
non-digit. -/
def parseDigitsAux : List Char → Nat → Option Nat
  | [], acc => some acc
  | c :: cs, acc =>
    match charDigit? c with
    | none => none
    | some d => parseDigitsAux cs (acc * 10 + d)

/-- Python's int() on the strings this service feeds it (decimal digit
strings produced by str() of a user id): the parsed number, or none when
int() would raise (empty or non-digit input; the sign and whitespace
forms int() also accepts never occur here and are folded into none). -/
def intOfString? (s : String) : Option Nat :=
  if s.data.isEmpty then none else parseDigitsAux s.data 0

/-- The claim set of a JWT issued by the service: jwt.encode puts the
`sub` value (possibly None) and the integer `exp` into the payload. -/
structure Claims where
  sub : Option String
  exp : Nat
deriving DecidableEq

/-- A token string. `signed c` is the deterministic jwt.encode of claims
`c` under the service secret with HS256; `garbage s` is any string that is
not a well-formed JWT signed with the service secret (malformed, or signed
under a different key). -/
inductive TokenStr where
  | signed (c : Claims)
  | garbage (s : String)
deriving DecidableEq

/-- Errors raised by jose's jwt.decode: JWTError for a malformed payload or
failing signature, ExpiredSignatureError (a JWTError subclass) when the
embedded exp has passed. -/
inductive JwtError where
  | invalidToken
  | expired
deriving DecidableEq

/-- jwt.decode(token, SECRET_KEY, algorithms=[HS256]) at time `now`:
signature and structure check, then exp validation (jose rejects when
exp < now). -/
def jwtDecode (t : TokenStr) (now : Nat) : Except JwtError Claims :=
  match t with
  | .garbage _ => .error .invalidToken
  | .signed c => if c.exp < now then .error .expired else .ok c

/-- jwt.encode of a payload {sub, exp}; deterministic. -/
def mkToken (sub : Option String) (exp : Nat) : TokenStr :=
  TokenStr.signed ⟨sub, exp⟩

/-- create_access_token from utils.py with the default expires_delta. -/
def create_access_token (sub : Option String) (now : Nat) : TokenStr :=
  mkToken sub (now + ACCESS_TTL)

/-- create_refresh_token from utils.py. -/
def create_refresh_token (sub : Option String) (now : Nat) : TokenStr :=
  mkToken sub (now + REFRESH_TTL)

/-- A stored password hash. Modelled from the passlib dependency used by
utils.py (CryptContext(schemes=[bcrypt])): `bcrypt salt pw` stands for the
bcrypt hash of password `pw` under salt `salt`; `malformed s` stands for
any string that passlib cannot identify as a hash of a configured scheme. -/
inductive HashStr where
  | bcrypt (salt : String) (pw : String)
  | malformed (s : String)
deriving DecidableEq

/-- Errors raised by passlib: CryptContext.verify raises UnknownHashError
when the stored hash cannot be identified as any configured scheme. -/
inductive PasslibError where
  | unknownHash
deriving DecidableEq

/-- CryptContext(schemes=[bcrypt]).verify, modelled from passlib's
documented behaviour: identify the hash (raising UnknownHashError if it
matches no configured scheme), then verify the password against it. -/
def pwd_context_verify (plain : String) (h : HashStr) : Except PasslibError Bool :=
  match h with
  | .malformed _ => .error .unknownHash
  | .bcrypt _ pw => .ok (decide (plain = pw))

/-- verify_password from utils.py: returns pwd_context.verify directly, so
any passlib exception propagates to the caller. -/
def verify_password (plain : String) (h : HashStr) : Except PasslibError Bool :=
  pwd_context_verify plain h

/-- A row of the users table (the columns the specified flows read or
write; profile columns have no lifecycle impact and are omitted). -/
structure UserRec where
  id : Nat
  email : String
  phone : Option String
  username : String
  password_hash : HashStr
  is_active : Bool
  email_verified : Bool
  phone_verified : Bool
deriving DecidableEq

/-- A row of the otp_codes table. -/
structure OTPRec where
  id : Nat
  user_id : Nat
  code : String
  otype : String
  purpose : String
  expires_at : Nat
  used : Bool
  created_at : Nat
deriving DecidableEq

/-- A row of the refresh_tokens table. -/
structure RefreshRec where
  id : Nat
  user_id : Nat
  token : TokenStr
  expires_at : Nat
deriving DecidableEq

/-- The persistent state: the three tables of database.py plus the SERIAL
counters. The token column of refresh_tokens carries a UNIQUE constraint
in the schema; the executions modelled in the theorems below never insert
a duplicate token string. -/
structure DB where
  users : List UserRec
  otp_codes : List OTPRec
  refresh_tokens : List RefreshRec
  nextOtpId : Nat
  nextRtId : Nat
deriving DecidableEq

/-- SELECT * FROM users WHERE email = $1 AND is_active = TRUE (email is
UNIQUE, so the first match is the only one). -/
def findActiveByEmail (db : DB) (email : String) : Option UserRec :=
  db.users.find? (fun u => decide (u.email = email ∧ u.is_active = true))

/-- SELECT * FROM users WHERE phone = $1 AND is_active = TRUE. -/
def findActiveByPhone (db : DB) (phone : String) : Option UserRec :=
  db.users.find? (fun u => decide (u.phone = some phone ∧ u.is_active = true))

/-- SELECT * FROM users WHERE id = $1 AND is_active = TRUE. -/
def findActiveById (db : DB) (uid : Nat) : Option UserRec :=
  db.users.find? (fun u => decide (u.id = uid ∧ u.is_active = true))

/-- SELECT * FROM refresh_tokens WHERE token = $1 AND expires_at > $2
(token is UNIQUE). -/
def findValidRefresh (db : DB) (t : TokenStr) (now : Nat) : Option RefreshRec :=
  db.refresh_tokens.find? (fun r => decide (r.token = t ∧ now < r.expires_at))

/-- DELETE FROM refresh_tokens WHERE id = $1. -/
def deleteRefreshById (db : DB) (i : Nat) : DB :=
  { db with refresh_tokens := db.refresh_tokens.filter (fun r => decide (r.id ≠ i)) }

/-- INSERT INTO refresh_tokens (user_id, token, expires_at). -/
def insertRefresh (db : DB) (uid : Nat) (t : TokenStr) (exp : Nat) : DB :=
  { db with
    refresh_tokens := db.refresh_tokens ++ [⟨db.nextRtId, uid, t, exp⟩],
    nextRtId := db.nextRtId + 1 }

/-- DELETE FROM refresh_tokens WHERE user_id = $1 (the body of logout). -/
def deleteAllRefreshForUser (db : DB) (uid : Nat) : DB :=
  { db with refresh_tokens := db.refresh_tokens.filter (fun r => decide (r.user_id ≠ uid)) }

/-- INSERT INTO otp_codes (user_id, code, type, purpose, expires_at);
created_at defaults to the current timestamp. -/
def insertOtp (db : DB) (uid : Nat) (code otype purpose : String) (exp now : Nat) : DB :=
  { db with
    otp_codes := db.otp_codes ++ [⟨db.nextOtpId, uid, code, otype, purpose, exp, false, now⟩],
    nextOtpId := db.nextOtpId + 1 }

/-- UPDATE otp_codes SET used = TRUE WHERE id = $1 (unconditional on the
current value of used). -/
def markOtpUsed (db : DB) (i : Nat) : DB :=
  { db with otp_codes := db.otp_codes.map (fun r => if r.id = i then { r with used := true } else r) }

/-- UPDATE users SET email_verified = TRUE WHERE id = $1. -/
def markEmailVerified (db : DB) (uid : Nat) : DB :=
  { db with users := db.users.map (fun u => if u.id = uid then { u with email_verified := true } else u) }

/-- UPDATE users SET phone_verified = TRUE WHERE id = $1. -/
def markPhoneVerified (db : DB) (uid : Nat) : DB :=
  { db with users := db.users.map (fun u => if u.id = uid then { u with phone_verified := true } else u) }

/-- The row filter of the otp_codes SELECT in verify_otp: user_id, code
and type match, used = FALSE, expires_at > now. (The SELECT does not
filter on purpose.) -/
abbrev otpMatches (r : OTPRec) (uid : Nat) (code otype : String) (now : Nat) : Prop :=
  r.user_id = uid ∧ r.code = code ∧ r.otype = otype ∧ r.used = false ∧ now < r.expires_at

/-- ORDER BY created_at DESC LIMIT 1 over a candidate list: the row with
the greatest created_at. -/
def pickNewest : List OTPRec → Option OTPRec
  | [] => none
  | r :: rs =>
    match pickNewest rs with
    | none => some r
    | some b => if r.created_at < b.created_at then some b else some r

/-- The otp_codes SELECT of verify_otp (main.py lines 205-217). -/
def selectValidOTP (db : DB) (uid : Nat) (code otype : String) (now : Nat) : Option OTPRec :=
  pickNewest (db.otp_codes.filter (fun r => decide (otpMatches r uid code otype now)))

/-- The user lookup shared by request_otp and verify_otp: email lookup
when type is "email", else phone lookup. -/
def userLookup (db : DB) (identifier otype : String) : Option UserRec :=
  if otype = "email" then findActiveByEmail db identifier else findActiveByPhone db identifier

/-- The user lookup of login: identifier is an email iff it contains an
@ character (Python's membership test on the string, expressed over the
character list of the string). -/
def loginLookup (db : DB) (identifier : String) : Option UserRec :=
  if identifier.data.contains '@' then findActiveByEmail db identifier
  else findActiveByPhone db identifier

/-- Caller-visible outcome of the login handler. internalError stands for
an exception escaping the handler (HTTP 500), e.g. passlib raising on a
malformed stored hash. -/
inductive LoginOut where
  | ok (access refresh : TokenStr)
  | unauthorized
  | internalError
deriving DecidableEq

/-- The login handler (main.py lines 97-131). -/
def loginOp (db : DB) (identifier password : String) (now : Nat) : LoginOut × DB :=
  match loginLookup db identifier with
  | none => (.unauthorized, db)
  | some u =>
    match verify_password password u.password_hash with
    | .error _ => (.internalError, db)
    | .ok false => (.unauthorized, db)
    | .ok true =>
      let access := create_access_token (some (toString u.id)) now
      let refresh := create_refresh_token (some (toString u.id)) now
      (.ok access refresh, insertRefresh db u.id refresh (now + REFRESH_TTL))

/-- Caller-visible outcome of the request_otp handler. -/
inductive ReqOtpOut where
  | sent
  | notFound
  | deliveryFailed
deriving DecidableEq

/-- The request_otp handler (main.py lines 134-182). The generated OTP
code is passed in as `code` (generate_otp is random), and the notifier
outcome as `deliveryOk` (send_otp_email / send_otp_sms return a bool). -/
def request_otpOp (db : DB) (identifier otype code : String) (deliveryOk : Bool)
    (now : Nat) : ReqOtpOut × DB :=
  match userLookup db identifier otype with
  | none => (.notFound, db)
  | some u =>
    let db1 := insertOtp db u.id code otype "login" (now + OTP_TTL) now
    if deliveryOk then (.sent, db1) else (.deliveryFailed, db1)

/-- Caller-visible outcome of the verify_otp handler. -/
inductive VerifyOut where
  | ok (access refresh : TokenStr)
  | notFound
  | invalidOrExpired
deriving DecidableEq

/-- The tail of the verify_otp handler after the SELECT returned row `r`
(main.py lines 224-250): mark used, set the channel verified flag, issue
and persist a token pair. Split out because the SELECT and these writes
are separate awaited database calls (suspension points). -/
def verifyContinue (db : DB) (u : UserRec) (r : OTPRec) (otype : String)
    (now : Nat) : VerifyOut × DB :=
  let db1 := markOtpUsed db r.id
  let db2 := if otype = "email" then markEmailVerified db1 u.id else markPhoneVerified db1 u.id
  let access := create_access_token (some (toString u.id)) now
  let refresh := create_refresh_token (some (toString u.id)) now
  (.ok access refresh, insertRefresh db2 u.id refresh (now + REFRESH_TTL))

/-- The verify_otp handler (main.py lines 185-250). -/
def verify_otpOp (db : DB) (identifier code otype : String) (now : Nat) : VerifyOut × DB :=
  match userLookup db identifier otype with
  | none => (.notFound, db)
  | some u =>
    match selectValidOTP db u.id code otype now with
    | none => (.invalidOrExpired, db)
    | some r => verifyContinue db u r otype now

/-- Caller-visible outcome of the refresh_token handler. internalError
stands for an exception other than JWTError/HTTPException escaping the
handler (HTTP 500): int(user_id) raising when the decoded sub is absent
or non-numeric. -/
inductive ROut where
  | ok (access refresh : TokenStr)
  | unauthorized
  | internalError
deriving DecidableEq

/-- The tail of the refresh_token handler after the store lookup returned
row `rec` (main.py lines 273-291): delete the old record, issue a new
pair for the decoded sub, persist the new refresh record under
int(user_id). int() raises (escaping the JWTError handler) when sub is
None or non-numeric; the deletion has already committed at that point. -/
def refreshContinue (db : DB) (sub : Option String) (rec : RefreshRec)
    (now : Nat) : ROut × DB :=
  let db1 := deleteRefreshById db rec.id
  let access := create_access_token sub now
  let refresh := create_refresh_token sub now
  match sub.bind intOfString? with
  | none => (.internalError, db1)
  | some uid => (.ok access refresh, insertRefresh db1 uid refresh (now + REFRESH_TTL))

/-- The refresh_token handler (main.py lines 253-295): decode (JWTError
maps to 401), look up the exact token string with expires_at > now (401
if absent), then rotate. -/
def refresh_tokenOp (db : DB) (t : TokenStr) (now : Nat) : ROut × DB :=
  match jwtDecode t now with
  | .error _ => (.unauthorized, db)
  | .ok c =>
    match findValidRefresh db t now with
    | none => (.unauthorized, db)
    | some rec => refreshContinue db c.sub rec now

/-- The logout handler (main.py lines 303-309), after get_current_user
resolved the access token to `uid`. -/
def logoutOp (db : DB) (uid : Nat) : DB :=
  deleteAllRefreshForUser db uid

/-- Outcome of the get_current_user dependency (auth.py). -/
inductive MeOut where
  | ok (u : UserRec)
  | unauthorized
  | internalError
deriving DecidableEq

/-- get_current_user from auth.py: decode the bearer token, reject when
sub is absent, re-fetch the user by id requiring is_active = TRUE. -/
def getCurrentUser (db : DB) (t : TokenStr) (now : Nat) : MeOut :=
  match jwtDecode t now with
  | .error _ => .unauthorized
  | .ok c =>
    match c.sub with
    | none => .unauthorized
    | some s =>
      match intOfString? s with
      | none => .internalError
      | some uid =>
        match findActiveById db uid with
        | none => .unauthorized
        | some u => .ok u

/-- Reachable-store invariant: every stored refresh token string is a
service-signed JWT whose sub claim is the decimal id of the record's
user. Every insert the service performs (login, verify_otp,
refresh_token) has this shape. -/
def refreshStoreWF (db : DB) : Prop :=
  ∀ r ∈ db.refresh_tokens, ∃ s e, r.token = TokenStr.signed ⟨some s, e⟩ ∧
    intOfString? s = some r.user_id

/-- The UNIQUE constraint on refresh_tokens.token (database.py line 87),
restricted to the rows present. -/
abbrev tokenUnique (db : DB) : Prop :=
  ∀ r1 ∈ db.refresh_tokens, ∀ r2 ∈ db.refresh_tokens, r1.token = r2.token → r1 = r2

/-! ### Concrete stores used by witnesses and counterexamples -/

/-- Active user record used by concrete witnesses: the stored hash is the
bcrypt hash of StrongPass1. -/
def aliceC7 : UserRec :=
  ⟨1, "alice@example.com", some "+12345678901", "alice",
   HashStr.bcrypt "saltA" "StrongPass1", true, false, false⟩

/-- Database used by the C7 and C9 witnesses: the single active user. -/
def dbC7 : DB := ⟨[aliceC7], [], [], 1, 1⟩

/-- Inactive user whose stored refresh token is still redeemable. -/
def aliceInactive : UserRec :=
  ⟨1, "alice@example.com", none, "alice", HashStr.bcrypt "saltA" "StrongPass1",
   false, false, false⟩

/-- Token for the C10 witness: a service-signed token with sub "1". -/
def tC10 : TokenStr := TokenStr.signed ⟨some "1", 5000⟩

/-- Database for the C10 witness: the user is inactive but a valid
refresh record for tC10 is stored. -/
def dbC10 : DB := ⟨[aliceInactive], [], [⟨1, 1, tC10, 5000⟩], 1, 2⟩

/-- The refresh token held by the store in the C1 counterexample: issued
at second 1000 with the default 7-day TTL. -/
def tC1 : TokenStr := TokenStr.signed ⟨some "1", 1000 + REFRESH_TTL⟩

/-- Store for the C1 counterexample: the single record for tC1. -/
def dbC1 : DB := ⟨[], [], [⟨1, 1, tC1, 1000 + REFRESH_TTL⟩], 1, 2⟩

/-- Token and store for the C1 amended witness: the stored token expires
at second 5000, so redeeming at second 2000 issues a distinct token. -/
def tC1w : TokenStr := TokenStr.signed ⟨some "1", 5000⟩

/-- Store for the C1 amended witness. -/
def dbC1w : DB := ⟨[], [], [⟨1, 1, tC1w, 5000⟩], 1, 2⟩

/-- Post-rotation store for the C1 amended witness. -/
def dbC1w2 : DB :=
  ⟨[], [], [⟨2, 1, TokenStr.signed ⟨some "1", 2000 + REFRESH_TTL⟩, 2000 + REFRESH_TTL⟩], 1, 3⟩

/-- Older OTP row for the C4 counterexample (code 111111, created at 1). -/
def otpRow1 : OTPRec := ⟨1, 1, "111111", "email", "login", 100, false, 1⟩

/-- Newer OTP row for the C4 counterexample (code 222222, created at 2). -/
def otpRow2 : OTPRec := ⟨2, 1, "222222", "email", "login", 100, false, 2⟩

/-- Store for the C4 theorems: both rows unused and unexpired for the
same (user, channel). -/
def dbC4 : DB := ⟨[aliceC7], [otpRow1, otpRow2], [], 3, 1⟩

/-- Two stored OTP rows carrying the SAME code for the same user and
channel (possible since generate_otp is random and otp_codes has no
uniqueness constraint); used by the C3 counterexample. -/
def otpDup1 : OTPRec := ⟨1, 1, "123456", "email", "login", 100, false, 1⟩

/-- The newer duplicate row for the C3 counterexample. -/
def otpDup2 : OTPRec := ⟨2, 1, "123456", "email", "login", 100, false, 2⟩

/-- Store for the C3 counterexample. -/
def dbC3 : DB := ⟨[aliceC7], [otpDup1, otpDup2], [], 3, 1⟩

/-- Single matching OTP row for the C3 amended witness. -/
def otpSingle : OTPRec := ⟨1, 1, "123456", "email", "login", 100, false, 1⟩

/-- Store for the C3 amended witness. -/
def dbC3w : DB := ⟨[aliceC7], [otpSingle], [], 2, 1⟩

/-- Stored refresh record for the C2 interleaving. -/
def recC2 : RefreshRec := ⟨1, 1, TokenStr.signed ⟨some "1", 5000⟩, 5000⟩

/-- Refresh store for the C2 interleaving. -/
def dbC2r : DB := ⟨[], [], [recC2], 1, 2⟩

/-- Unused, unexpired OTP row for the C2 interleaving. -/
def otpC2 : OTPRec := ⟨1, 1, "123456", "email", "login", 400, false, 5⟩

/-- Store for the OTP half of the C2 interleaving. -/
def dbC2o : DB := ⟨[aliceC7], [otpC2], [], 2, 1⟩

/-! ### Helper lemmas -/

theorem pickNewest_eq_none {l : List OTPRec} (h : pickNewest l = none) : l = [] := by
  cases l with
  | nil => rfl
  | cons a as =>
    exfalso
    simp only [pickNewest] at h
    split at h
    · exact Option.noConfusion h
    · split at h <;> exact Option.noConfusion h

theorem pickNewest_mem {l : List OTPRec} {r : OTPRec} (h : pickNewest l = some r) :
    r ∈ l := by
  induction l with
  | nil => simp [pickNewest] at h
  | cons a as ih =>
    simp only [pickNewest] at h
    split at h
    · injection h with h
      exact h ▸ List.mem_cons_self a as
    · rename_i b hp
      split at h
      · injection h with h
        exact List.mem_cons_of_mem a (ih (h ▸ hp))
      · injection h with h
        exact h ▸ List.mem_cons_self a as

theorem pickNewest_max {l : List OTPRec} :
    ∀ {r : OTPRec}, pickNewest l = some r → ∀ x ∈ l, x.created_at ≤ r.created_at := by
  induction l with
  | nil => intro r h; simp [pickNewest] at h
  | cons a as ih =>
    intro r h x hx
    simp only [pickNewest] at h
    split at h
    · rename_i hp
      have hnil := pickNewest_eq_none hp
      subst hnil
      injection h with h
      rcases List.mem_cons.mp hx with hxa | hxas
      · exact hxa ▸ h ▸ le_refl _
      · cases hxas
    · rename_i b hp
      split at h
      · rename_i hc
        injection h with h
        subst h
        rcases List.mem_cons.mp hx with hxa | hxas
        · exact hxa ▸ le_of_lt hc
        · exact ih hp x hxas
      · rename_i hc
        injection h with h
        subst h
        rcases List.mem_cons.mp hx with hxa | hxas
        · exact hxa ▸ le_refl _
        · exact le_trans (ih hp x hxas) (le_of_not_lt hc)

theorem selectValidOTP_sound {db : DB} {uid : Nat} {code otype : String} {now : Nat}
    {r : OTPRec} (h : selectValidOTP db uid code otype now = some r) :
    r ∈ db.otp_codes ∧ otpMatches r uid code otype now ∧
      ∀ x ∈ db.otp_codes, otpMatches x uid code otype now → x.created_at ≤ r.created_at := by
  have hmem := pickNewest_mem h
  have hmax := pickNewest_max h
  rw [List.mem_filter] at hmem
  refine ⟨hmem.1, of_decide_eq_true hmem.2, ?_⟩
  intro x hx hmx
  exact hmax x (List.mem_filter.mpr ⟨hx, decide_eq_true hmx⟩)

theorem selectValidOTP_eq_none {db : DB} {uid : Nat} {code otype : String} {now : Nat}
    (h : ∀ x ∈ db.otp_codes, ¬ otpMatches x uid code otype now) :
    selectValidOTP db uid code otype now = none := by
  unfold selectValidOTP
  have : db.otp_codes.filter (fun r => decide (otpMatches r uid code otype now)) = [] := by
    rw [List.filter_eq_nil_iff]
    intro a ha
    simpa using h a ha
  rw [this]
  rfl

theorem findValidRefresh_eq_none {db : DB} {t : TokenStr} {now : Nat}
    (h : ∀ r ∈ db.refresh_tokens, ¬ (r.token = t ∧ now < r.expires_at)) :
    findValidRefresh db t now = none := by
  unfold findValidRefresh
  rw [List.find?_eq_none]
  intro x hx
  simpa using h x hx

theorem findValidRefresh_some {db : DB} {t : TokenStr} {now : Nat} {rec : RefreshRec}
    (h : findValidRefresh db t now = some rec) :
    rec ∈ db.refresh_tokens ∧ rec.token = t ∧ now < rec.expires_at := by
  have hmem := List.mem_of_find?_eq_some h
  have hp := List.find?_some h
  rw [decide_eq_true_eq] at hp
  exact ⟨hmem, hp.1, hp.2⟩

theorem refresh_unauthorized_of_find_none {db : DB} {t : TokenStr} {now : Nat}
    (h : findValidRefresh db t now = none) :
    refresh_tokenOp db t now = (ROut.unauthorized, db) := by
  unfold refresh_tokenOp
  cases hd : jwtDecode t now with
  | error e => rfl
  | ok c => rw [h]

theorem refresh_ok_eq {db : DB} {t : TokenStr} {now : Nat} {c : Claims}
    {rec : RefreshRec} {n : Nat}
    (hdec : jwtDecode t now = .ok c)
    (hfind : findValidRefresh db t now = some rec)
    (hsub : c.sub.bind intOfString? = some n) :
    refresh_tokenOp db t now =
      (ROut.ok (create_access_token c.sub now) (create_refresh_token c.sub now),
       insertRefresh (deleteRefreshById db rec.id) n (create_refresh_token c.sub now)
         (now + REFRESH_TTL)) := by
  unfold refresh_tokenOp refreshContinue
  rw [hdec]
  simp only [hfind, hsub]

theorem find?_map_pred_inv {α : Type} (p : α → Bool) (g : α → α)
    (hg : ∀ x, p (g x) = p x) :
    ∀ l : List α, (l.map g).find? p = Option.map g (l.find? p) := by
  intro l
  induction l with
  | nil => rfl
  | cons a as ih =>
    simp only [List.map_cons, List.find?]
    rw [hg a]
    cases hp : p a with
    | false => simpa using ih
    | true => rfl

theorem userLookup_congr_users (db2 db1 : DB) (identifier otype : String)
    (h : db2.users = db1.users) :
    userLookup db2 identifier otype = userLookup db1 identifier otype := by
  unfold userLookup findActiveByEmail findActiveByPhone
  rw [h]

theorem selectValidOTP_congr_otps (db2 db1 : DB) (uid : Nat) (code otype : String)
    (now : Nat) (h : db2.otp_codes = db1.otp_codes) :
    selectValidOTP db2 uid code otype now = selectValidOTP db1 uid code otype now := by
  unfold selectValidOTP
  rw [h]

theorem userLookup_markEmailVerified (db : DB) (identifier otype : String) (uid : Nat) :
    userLookup (markEmailVerified db uid) identifier otype =
      Option.map (fun x => if x.id = uid then { x with email_verified := true } else x)
        (userLookup db identifier otype) := by
  unfold userLookup markEmailVerified findActiveByEmail findActiveByPhone
  by_cases ho : otype = "email"
  · rw [if_pos ho, if_pos ho]
    exact find?_map_pred_inv _ _
      (fun x => by by_cases hid : x.id = uid <;> simp [hid]) db.users
  · rw [if_neg ho, if_neg ho]
    exact find?_map_pred_inv _ _
      (fun x => by by_cases hid : x.id = uid <;> simp [hid]) db.users

theorem userLookup_markPhoneVerified (db : DB) (identifier otype : String) (uid : Nat) :
    userLookup (markPhoneVerified db uid) identifier otype =
      Option.map (fun x => if x.id = uid then { x with phone_verified := true } else x)
        (userLookup db identifier otype) := by
  unfold userLookup markPhoneVerified findActiveByEmail findActiveByPhone
  by_cases ho : otype = "email"
  · rw [if_pos ho, if_pos ho]
    exact find?_map_pred_inv _ _
      (fun x => by by_cases hid : x.id = uid <;> simp [hid]) db.users
  · rw [if_neg ho, if_neg ho]
    exact find?_map_pred_inv _ _
      (fun x => by by_cases hid : x.id = uid <;> simp [hid]) db.users

theorem verify_invalid_of_lookup_and_none (P : DB) (identifier code otype : String)
    (now2 : Nat) (u2 : UserRec)
    (hlk : userLookup P identifier otype = some u2)
    (hsel : selectValidOTP P u2.id code otype now2 = none) :
    verify_otpOp P identifier code otype now2 = (VerifyOut.invalidOrExpired, P) := by
  unfold verify_otpOp
  rw [hlk]
  simp only [hsel]

theorem select_none_after_markUsed (db : DB) (uid : Nat) (code otype : String)
    (now now2 : Nat) (r : OTPRec)
    (hnow : now ≤ now2)
    (honly : ∀ x ∈ db.otp_codes, otpMatches x uid code otype now → x = r) :
    selectValidOTP (markOtpUsed db r.id) uid code otype now2 = none := by
  apply selectValidOTP_eq_none
  intro y hy
  simp only [markOtpUsed, List.mem_map] at hy
  obtain ⟨x, hx, hmx⟩ := hy
  subst hmx
  intro hmatch
  by_cases hxid : x.id = r.id
  · rw [if_pos hxid] at hmatch
    exact Bool.noConfusion hmatch.2.2.2.1
  · rw [if_neg hxid] at hmatch
    have hmx0 : otpMatches x uid code otype now :=
      ⟨hmatch.1, hmatch.2.1, hmatch.2.2.1, hmatch.2.2.2.1,
       lt_of_le_of_lt hnow hmatch.2.2.2.2⟩
    exact hxid (congrArg OTPRec.id (honly x hx hmx0))

/-! ### Claim theorems -/

/-- C7: the two failure causes of login — no active user matches the
identifier, and the password verifying false against the matched user's
hash — return the identical Unauthorized error (and leave the state
untouched), so the caller-visible result does not reveal whether the
identifier corresponds to an existing user. -/
theorem login_failures_indistinguishable (db : DB) (i1 p1 i2 p2 : String)
    (u : UserRec) (now : Nat)
    (h1 : loginLookup db i1 = none)
    (h2 : loginLookup db i2 = some u)
    (h3 : verify_password p2 u.password_hash = .ok false) :
    loginOp db i1 p1 now = (LoginOut.unauthorized, db) ∧
    loginOp db i2 p2 now = (LoginOut.unauthorized, db) ∧
    loginOp db i1 p1 now = loginOp db i2 p2 now := by
  have e1 : loginOp db i1 p1 now = (LoginOut.unauthorized, db) := by
    unfold loginOp
    rw [h1]
  have e2 : loginOp db i2 p2 now = (LoginOut.unauthorized, db) := by
    unfold loginOp
    rw [h2]
    simp only [h3]
  exact ⟨e1, e2, e1.trans e2.symm⟩

/-- Witness for C7: an unknown email and a wrong password for a known
email produce the same Unauthorized result. -/
theorem login_failures_indistinguishable_witness :
    loginOp dbC7 "bob@example.com" "StrongPass1" 50 = (LoginOut.unauthorized, dbC7) ∧
    loginOp dbC7 "alice@example.com" "WrongPass1" 50 = (LoginOut.unauthorized, dbC7) ∧
    loginOp dbC7 "bob@example.com" "StrongPass1" 50 =
      loginOp dbC7 "alice@example.com" "WrongPass1" 50 :=
  login_failures_indistinguishable dbC7 "bob@example.com" "StrongPass1"
    "alice@example.com" "WrongPass1" aliceC7 50 (by decide) (by decide) rfl

/-- C8 counterexample: verify_password passes passlib's CryptContext.verify
straight through, and that raises UnknownHashError on a stored hash that
cannot be identified (for example the empty string) instead of returning
false. -/
theorem verify_password_raises_on_malformed_hash :
    verify_password "AnyPassword1" (HashStr.malformed "") =
      Except.error PasslibError.unknownHash ∧
    verify_password "AnyPassword1" (HashStr.malformed "") ≠ Except.ok false :=
  ⟨rfl, fun h => Except.noConfusion h⟩

/-- C8 amended: verify(password, hash) returns a boolean whenever the
stored hash is identifiable as a bcrypt hash; on a malformed stored hash
it raises UnknownHashError rather than returning false. -/
theorem verify_password_boolean_on_wellformed :
    (∀ p salt pw, verify_password p (HashStr.bcrypt salt pw) = Except.ok (decide (p = pw))) ∧
    (∀ p s, verify_password p (HashStr.malformed s) = Except.error PasslibError.unknownHash) :=
  ⟨fun _ _ _ => rfl, fun _ _ => rfl⟩

/-- C9: when request_otp finds the active user and the notifier delivery
fails, the handler returns DeliveryFailed but the OTPCode row inserted
before the delivery attempt remains in the returned state — the insert is
a separate auto-committed statement and is not rolled back. -/
theorem request_otp_row_survives_delivery_failure (db : DB)
    (identifier otype code : String) (now : Nat) (u : UserRec)
    (hu : userLookup db identifier otype = some u) :
    (request_otpOp db identifier otype code false now).1 = ReqOtpOut.deliveryFailed ∧
    (⟨db.nextOtpId, u.id, code, otype, "login", now + OTP_TTL, false, now⟩ : OTPRec) ∈
      (request_otpOp db identifier otype code false now).2.otp_codes := by
  unfold request_otpOp
  rw [hu]
  refine ⟨rfl, ?_⟩
  simp [insertOtp]

/-- Witness for C9: with the concrete user store of dbC7, a failed email
delivery still leaves the freshly inserted OTP row in the table. -/
theorem request_otp_row_survives_delivery_failure_witness :
    (request_otpOp dbC7 "alice@example.com" "email" "123456" false 40).1 =
      ReqOtpOut.deliveryFailed ∧
    (⟨1, 1, "123456", "email", "login", 40 + OTP_TTL, false, 40⟩ : OTPRec) ∈
      (request_otpOp dbC7 "alice@example.com" "email" "123456" false 40).2.otp_codes :=
  request_otp_row_survives_delivery_failure dbC7 "alice@example.com" "email"
    "123456" 40 aliceC7 (by decide)

/-- C5: over any state whose refresh store only holds tokens the service
itself issued (refreshStoreWF), refresh_token fails with Unauthorized on
a malformed or wrongly signed token, on a past embedded expiry, on an
absent subject claim, and on any token string not present in the store
with expires_at > now; it never raises an error outside that taxonomy
(the outcome is never internalError). -/
theorem refresh_errors_only_unauthorized (db : DB) (t : TokenStr) (now : Nat)
    (hwf : refreshStoreWF db) :
    ((∃ e, jwtDecode t now = .error e) → refresh_tokenOp db t now = (ROut.unauthorized, db)) ∧
    ((∃ x, t = TokenStr.signed ⟨none, x⟩) → (refresh_tokenOp db t now).1 = ROut.unauthorized) ∧
    (findValidRefresh db t now = none → refresh_tokenOp db t now = (ROut.unauthorized, db)) ∧
    (refresh_tokenOp db t now).1 ≠ ROut.internalError := by
  refine ⟨?_, ?_, ?_, ?_⟩
  · rintro ⟨e, he⟩
    unfold refresh_tokenOp
    rw [he]
  · rintro ⟨x, ht⟩
    cases hf : findValidRefresh db t now with
    | none => rw [refresh_unauthorized_of_find_none hf]
    | some rec =>
      exfalso
      obtain ⟨hmem, htok, _⟩ := findValidRefresh_some hf
      obtain ⟨s, e, hshape, _⟩ := hwf rec hmem
      rw [htok, ht] at hshape
      simp [TokenStr.signed.injEq, Claims.mk.injEq] at hshape
  · intro hf
    exact refresh_unauthorized_of_find_none hf
  · cases hd : jwtDecode t now with
    | error e =>
      have : refresh_tokenOp db t now = (ROut.unauthorized, db) := by
        unfold refresh_tokenOp; rw [hd]
      rw [this]
      exact fun h => ROut.noConfusion h
    | ok c =>
      cases hf : findValidRefresh db t now with
      | none =>
        rw [refresh_unauthorized_of_find_none hf]
        exact fun h => ROut.noConfusion h
      | some rec =>
        obtain ⟨hmem, htok, _⟩ := findValidRefresh_some hf
        obtain ⟨s, e, hshape, hnum⟩ := hwf rec hmem
        rw [htok] at hshape
        have hc : c = ⟨some s, e⟩ := by
          rw [hshape] at hd
          simp only [jwtDecode] at hd
          split at hd
          · exact Except.noConfusion hd
          · injection hd with hd; exact hd.symm
        have hsub : c.sub.bind intOfString? = some rec.user_id := by
          rw [hc]; exact hnum
        rw [refresh_ok_eq hd hf hsub]
        exact fun h => ROut.noConfusion h

/-- Witness for C5: in an empty store, a malformed token string is
rejected with Unauthorized and the state is unchanged. -/
theorem refresh_errors_only_unauthorized_witness :
    refresh_tokenOp ⟨[], [], [], 1, 1⟩ (TokenStr.garbage "not-a-jwt") 0 =
      (ROut.unauthorized, ⟨[], [], [], 1, 1⟩) :=
  (refresh_errors_only_unauthorized ⟨[], [], [], 1, 1⟩ (TokenStr.garbage "not-a-jwt") 0
      (fun r hr => absurd hr (List.not_mem_nil r))).2.2.1 rfl

/-- C10: refresh_token never consults the users table — a stored,
unexpired refresh token whose signature verifies is redeemed and a new
pair issued for its subject even when every user row with that id is
inactive; get_current_user (used by protected endpoints) re-fetches the
user with is_active = TRUE and rejects the same subject. -/
theorem refresh_ignores_user_active_flag (db : DB) (uid : Nat) (s : String)
    (e e2 now now2 : Nat) (rec : RefreshRec)
    (hs : intOfString? s = some uid)
    (hexp : now ≤ e)
    (hfind : findValidRefresh db (TokenStr.signed ⟨some s, e⟩) now = some rec)
    (hinactive : ∀ u ∈ db.users, u.id = uid → u.is_active = false)
    (hexp2 : now2 ≤ e2) :
    refresh_tokenOp db (TokenStr.signed ⟨some s, e⟩) now =
      (ROut.ok (create_access_token (some s) now) (create_refresh_token (some s) now),
       insertRefresh (deleteRefreshById db rec.id) uid (create_refresh_token (some s) now)
         (now + REFRESH_TTL)) ∧
    getCurrentUser db (TokenStr.signed ⟨some s, e2⟩) now2 = MeOut.unauthorized := by
  have hdec : jwtDecode (TokenStr.signed ⟨some s, e⟩) now = .ok ⟨some s, e⟩ := by
    simp only [jwtDecode]
    rw [if_neg (not_lt.mpr hexp)]
  have hdec2 : jwtDecode (TokenStr.signed ⟨some s, e2⟩) now2 = .ok ⟨some s, e2⟩ := by
    simp only [jwtDecode]
    rw [if_neg (not_lt.mpr hexp2)]
  have hfa : findActiveById db uid = none := by
    unfold findActiveById
    rw [List.find?_eq_none]
    intro u hu
    simp only [decide_eq_true_eq]
    rintro ⟨hid, hact⟩
    rw [hinactive u hu hid] at hact
    exact Bool.false_ne_true hact
  constructor
  · exact refresh_ok_eq hdec hfind hs
  · unfold getCurrentUser
    rw [hdec2]
    simp only [hs, hfa]

/-- Witness for C10: the inactive user's stored token is redeemed with a
new pair, while the same subject is rejected by get_current_user. -/
theorem refresh_ignores_user_active_flag_witness :
    refresh_tokenOp dbC10 (TokenStr.signed ⟨some "1", 5000⟩) 100 =
      (ROut.ok (create_access_token (some "1") 100) (create_refresh_token (some "1") 100),
       insertRefresh (deleteRefreshById dbC10 1) 1 (create_refresh_token (some "1") 100)
         (100 + REFRESH_TTL)) ∧
    getCurrentUser dbC10 (TokenStr.signed ⟨some "1", 5000⟩) 100 = MeOut.unauthorized :=
  refresh_ignores_user_active_flag dbC10 1 "1" 5000 5000 100 100 ⟨1, 1, tC10, 5000⟩
    (by decide) (by decide) (by decide) (by decide) (by decide)

/-- C1 counterexample: redeeming tC1 at second 1000 — the same second its
expiry was computed from — succeeds and, because jwt.encode is
deterministic and exp has second granularity, inserts a record for a new
refresh token that is the identical string tC1; a later refresh_token
call with tC1 then succeeds instead of failing Unauthorized. -/
theorem rotation_can_reissue_old_token :
    (refresh_tokenOp dbC1 tC1 1000).1 =
      ROut.ok (TokenStr.signed ⟨some "1", 1000 + ACCESS_TTL⟩) tC1 ∧
    (refresh_tokenOp (refresh_tokenOp dbC1 tC1 1000).2 tC1 1001).1 =
      ROut.ok (TokenStr.signed ⟨some "1", 1001 + ACCESS_TTL⟩)
        (TokenStr.signed ⟨some "1", 1001 + REFRESH_TTL⟩) ∧
    (refresh_tokenOp (refresh_tokenOp dbC1 tC1 1000).2 tC1 1001).1 ≠ ROut.unauthorized := by
  refine ⟨by decide, by decide, by decide⟩

/-- C1 amended: when a successful refresh_token(t) issues a new refresh
token distinct from t (which holds exactly when the redemption second
differs from the second t's expiry was computed from), every later
refresh_token(t) call against the resulting state fails Unauthorized:
the matched record was deleted and, under the UNIQUE token constraint,
no other record for t exists. -/
theorem rotation_invalidates_old_token (db : DB) (t a nt : TokenStr)
    (now now2 : Nat) (db2 : DB)
    (huniq : tokenUnique db)
    (hrun : refresh_tokenOp db t now = (ROut.ok a nt, db2))
    (hdistinct : nt ≠ t) :
    refresh_tokenOp db2 t now2 = (ROut.unauthorized, db2) := by
  cases hd : jwtDecode t now with
  | error e =>
    exfalso
    unfold refresh_tokenOp at hrun
    rw [hd] at hrun
    have := congrArg Prod.fst hrun
    simp at this
  | ok c =>
    cases hf : findValidRefresh db t now with
    | none =>
      exfalso
      rw [refresh_unauthorized_of_find_none hf] at hrun
      have := congrArg Prod.fst hrun
      simp at this
    | some rec =>
      cases hsub : c.sub.bind intOfString? with
      | none =>
        exfalso
        unfold refresh_tokenOp refreshContinue at hrun
        rw [hd] at hrun
        simp only [hf, hsub] at hrun
        have := congrArg Prod.fst hrun
        simp at this
      | some n =>
        rw [refresh_ok_eq hd hf hsub] at hrun
        rw [Prod.mk.injEq] at hrun
        obtain ⟨h1, h2⟩ := hrun
        injection h1 with ha hnt
        obtain ⟨hmem, htok, _⟩ := findValidRefresh_some hf
        have hnone : findValidRefresh db2 t now2 = none := by
          apply findValidRefresh_eq_none
          intro r hr
          rw [← h2] at hr
          simp only [insertRefresh, deleteRefreshById, List.mem_append,
            List.mem_filter, List.mem_singleton] at hr
          rintro ⟨hrt, _⟩
          rcases hr with ⟨hrdb, hrid⟩ | hrnew
          · have : r = rec := huniq r hrdb rec hmem (hrt.trans htok.symm)
            rw [this] at hrid
            simp at hrid
          · rw [hrnew] at hrt
            exact hdistinct (hnt ▸ hrt)
        exact refresh_unauthorized_of_find_none hnone

/-- Witness for the C1 amended theorem at a concrete rotation. -/
theorem rotation_invalidates_old_token_witness :
    refresh_tokenOp dbC1w2 tC1w 2500 = (ROut.unauthorized, dbC1w2) :=
  rotation_invalidates_old_token dbC1w tC1w
    (TokenStr.signed ⟨some "1", 2000 + ACCESS_TTL⟩)
    (TokenStr.signed ⟨some "1", 2000 + REFRESH_TTL⟩) 2000 2500 dbC1w2
    (by decide) (by decide) (by decide)

/-- C4 counterexample: with two unused, unexpired rows for the same
(user, channel), verify_otp still accepts the OLDER code — the SELECT
filters by the submitted code, so its ORDER BY created_at DESC only
ranks rows sharing that code; older codes are not superseded. -/
theorem older_otp_code_still_accepted :
    (verify_otpOp dbC4 "alice@example.com" "111111" "email" 10).1 =
      VerifyOut.ok (TokenStr.signed ⟨some "1", 10 + ACCESS_TTL⟩)
        (TokenStr.signed ⟨some "1", 10 + REFRESH_TTL⟩) ∧
    (verify_otpOp dbC4 "alice@example.com" "111111" "email" 10).1 ≠
      VerifyOut.invalidOrExpired := by
  exact ⟨by decide, by decide⟩

/-- C4 amended: the newest-wins rule holds per (user, code, channel):
when the SELECT of verify_otp returns a row, that row matches the
submitted code, is unused and unexpired, and is the most recently
created among the rows matching that same code; verify_otp then redeems
exactly that row (its used flag is set in the post-state) while the
other rows remain stored unchanged apart from it. -/
theorem verify_otp_selects_newest_matching (db : DB) (identifier code otype : String)
    (now : Nat) (u : UserRec) (r : OTPRec)
    (hu : userLookup db identifier otype = some u)
    (hsel : selectValidOTP db u.id code otype now = some r) :
    otpMatches r u.id code otype now ∧
    (∀ x ∈ db.otp_codes, otpMatches x u.id code otype now → x.created_at ≤ r.created_at) ∧
    verify_otpOp db identifier code otype now = verifyContinue db u r otype now ∧
    ({ r with used := true } : OTPRec) ∈ (verify_otpOp db identifier code otype now).2.otp_codes := by
  obtain ⟨hmem, hm, hmax⟩ := selectValidOTP_sound hsel
  have heq : verify_otpOp db identifier code otype now = verifyContinue db u r otype now := by
    unfold verify_otpOp
    rw [hu]
    simp only [hsel]
  refine ⟨hm, hmax, heq, ?_⟩
  rw [heq]
  have hmark : ({ r with used := true } : OTPRec) ∈ (markOtpUsed db r.id).otp_codes := by
    unfold markOtpUsed
    simp only [List.mem_map]
    exact ⟨r, hmem, by simp⟩
  unfold verifyContinue
  by_cases ho : otype = "email"
  · simpa [insertRefresh, markEmailVerified, ho] using hmark
  · simpa [insertRefresh, markPhoneVerified, ho] using hmark

/-- Witness for the C4 amended theorem: the newer code 222222 is
selected and its row is the one marked used. -/
theorem verify_otp_selects_newest_matching_witness :
    ({ otpRow2 with used := true } : OTPRec) ∈
      (verify_otpOp dbC4 "alice@example.com" "222222" "email" 10).2.otp_codes :=
  (verify_otp_selects_newest_matching dbC4 "alice@example.com" "222222" "email" 10
      aliceC7 otpRow2 (by decide) (by decide)).2.2.2

/-- C3 counterexample: two stored rows carry the same code for the same
(user, channel); the first verify_otp redeems the newer row, and a second
sequential verify_otp with the same code succeeds through the older row
instead of failing InvalidOrExpired. -/
theorem duplicate_otp_code_redeemed_twice :
    (verify_otpOp dbC3 "alice@example.com" "123456" "email" 10).1 =
      VerifyOut.ok (TokenStr.signed ⟨some "1", 10 + ACCESS_TTL⟩)
        (TokenStr.signed ⟨some "1", 10 + REFRESH_TTL⟩) ∧
    (verify_otpOp (verify_otpOp dbC3 "alice@example.com" "123456" "email" 10).2
        "alice@example.com" "123456" "email" 11).1 =
      VerifyOut.ok (TokenStr.signed ⟨some "1", 11 + ACCESS_TTL⟩)
        (TokenStr.signed ⟨some "1", 11 + REFRESH_TTL⟩) ∧
    (verify_otpOp (verify_otpOp dbC3 "alice@example.com" "123456" "email" 10).2
        "alice@example.com" "123456" "email" 11).1 ≠ VerifyOut.invalidOrExpired := by
  exact ⟨by decide, by decide, by decide⟩

/-- C3 amended: with the user found, verify_otp fails with the single
error InvalidOrExpired (state unchanged) exactly when no row for
(user, code, channel) is unused with expires_at > now; it succeeds only
when such a row exists; and a second sequential verify_otp with the same
code fails InvalidOrExpired provided the redeemed row was the ONLY row
matching (user, code, channel) — duplicate rows with the same code (the
counterexample) are the one exception. -/
theorem verify_otp_single_use (db : DB) (identifier code otype : String)
    (now now2 : Nat) (u : UserRec) (r : OTPRec)
    (hu : userLookup db identifier otype = some u)
    (hnow : now ≤ now2) :
    (selectValidOTP db u.id code otype now = none →
      verify_otpOp db identifier code otype now = (VerifyOut.invalidOrExpired, db)) ∧
    (∀ a rt, (verify_otpOp db identifier code otype now).1 = VerifyOut.ok a rt →
      ∃ x ∈ db.otp_codes, otpMatches x u.id code otype now) ∧
    (selectValidOTP db u.id code otype now = some r →
      (∀ x ∈ db.otp_codes, otpMatches x u.id code otype now → x = r) →
      (verify_otpOp (verify_otpOp db identifier code otype now).2
          identifier code otype now2).1 = VerifyOut.invalidOrExpired) := by
  refine ⟨?_, ?_, ?_⟩
  · intro hnone
    unfold verify_otpOp
    rw [hu]
    simp only [hnone]
  · intro a rt hok
    unfold verify_otpOp at hok
    rw [hu] at hok
    cases hsel : selectValidOTP db u.id code otype now with
    | none =>
      simp only [hsel] at hok
      exact VerifyOut.noConfusion hok
    | some x =>
      obtain ⟨hmem, hm, _⟩ := selectValidOTP_sound hsel
      exact ⟨x, hmem, hm⟩
  · intro hsel honly
    have heq : verify_otpOp db identifier code otype now = verifyContinue db u r otype now := by
      unfold verify_otpOp
      rw [hu]
      simp only [hsel]
    rw [heq]
    by_cases ho : otype = "email"
    · subst ho
      have hlk : userLookup (verifyContinue db u r "email" now).2 identifier "email" =
          some { u with email_verified := true } := by
        rw [userLookup_congr_users (verifyContinue db u r "email" now).2
              (markEmailVerified (markOtpUsed db r.id) u.id) identifier "email" rfl,
            userLookup_markEmailVerified,
            userLookup_congr_users (markOtpUsed db r.id) db identifier "email" rfl,
            hu]
        simp
      have hsel2 : selectValidOTP (verifyContinue db u r "email" now).2
          ({ u with email_verified := true } : UserRec).id code "email" now2 = none := by
        rw [selectValidOTP_congr_otps (verifyContinue db u r "email" now).2
              (markOtpUsed db r.id) ({ u with email_verified := true } : UserRec).id
              code "email" now2 rfl]
        exact select_none_after_markUsed db u.id code "email" now now2 r hnow honly
      rw [verify_invalid_of_lookup_and_none (verifyContinue db u r "email" now).2
            identifier code "email" now2 _ hlk hsel2]
    · have hlk : userLookup (verifyContinue db u r otype now).2 identifier otype =
          some { u with phone_verified := true } := by
        have hstep : (verifyContinue db u r otype now).2 =
            insertRefresh (markPhoneVerified (markOtpUsed db r.id) u.id) u.id
              (create_refresh_token (some (toString u.id)) now) (now + REFRESH_TTL) := by
          unfold verifyContinue
          simp only [ho, if_false, ite_false]
        rw [hstep,
            userLookup_congr_users
              (insertRefresh (markPhoneVerified (markOtpUsed db r.id) u.id) u.id
                (create_refresh_token (some (toString u.id)) now) (now + REFRESH_TTL))
              (markPhoneVerified (markOtpUsed db r.id) u.id) identifier otype rfl,
            userLookup_markPhoneVerified,
            userLookup_congr_users (markOtpUsed db r.id) db identifier otype rfl,
            hu]
        simp
      have hsel2 : selectValidOTP (verifyContinue db u r otype now).2
          ({ u with phone_verified := true } : UserRec).id code otype now2 = none := by
        have hstep : (verifyContinue db u r otype now).2 =
            insertRefresh (markPhoneVerified (markOtpUsed db r.id) u.id) u.id
              (create_refresh_token (some (toString u.id)) now) (now + REFRESH_TTL) := by
          unfold verifyContinue
          simp only [ho, if_false, ite_false]
        rw [hstep,
            selectValidOTP_congr_otps
              (insertRefresh (markPhoneVerified (markOtpUsed db r.id) u.id) u.id
                (create_refresh_token (some (toString u.id)) now) (now + REFRESH_TTL))
              (markOtpUsed db r.id) ({ u with phone_verified := true } : UserRec).id
              code otype now2 rfl]
        exact select_none_after_markUsed db u.id code otype now now2 r hnow honly
      rw [verify_invalid_of_lookup_and_none (verifyContinue db u r otype now).2
            identifier code otype now2 _ hlk hsel2]

/-- Witness for the C3 amended theorem: with a single matching row, the
second sequential verification of the same code fails InvalidOrExpired. -/
theorem verify_otp_single_use_witness :
    (verify_otpOp (verify_otpOp dbC3w "alice@example.com" "123456" "email" 10).2
        "alice@example.com" "123456" "email" 11).1 = VerifyOut.invalidOrExpired :=
  (verify_otp_single_use dbC3w "alice@example.com" "123456" "email" 10 11 aliceC7
      otpSingle (by decide) (by decide)).2.2 (by decide) (by decide)

/-- C6 counterexample: login at second 1000, logout, login again at
second 1000 — deterministic jwt.encode reissues the identical refresh
token string — and then refresh_token with the PRE-logout token succeeds
instead of failing Unauthorized. -/
theorem pre_logout_token_accepted_after_relogin :
    (loginOp dbC7 "alice@example.com" "StrongPass1" 1000).1 =
      LoginOut.ok (TokenStr.signed ⟨some "1", 1000 + ACCESS_TTL⟩)
        (TokenStr.signed ⟨some "1", 1000 + REFRESH_TTL⟩) ∧
    (loginOp (logoutOp (loginOp dbC7 "alice@example.com" "StrongPass1" 1000).2 1)
        "alice@example.com" "StrongPass1" 1000).1 =
      LoginOut.ok (TokenStr.signed ⟨some "1", 1000 + ACCESS_TTL⟩)
        (TokenStr.signed ⟨some "1", 1000 + REFRESH_TTL⟩) ∧
    (refresh_tokenOp
        (loginOp (logoutOp (loginOp dbC7 "alice@example.com" "StrongPass1" 1000).2 1)
            "alice@example.com" "StrongPass1" 1000).2
        (TokenStr.signed ⟨some "1", 1000 + REFRESH_TTL⟩) 2000).1 ≠ ROut.unauthorized := by
  refine ⟨by decide, by decide, by decide⟩

/-- C6 amended: logout deletes every RefreshToken record of the user, so
immediately afterwards any service-issued token for that user fails
Unauthorized; access-token authentication is unaffected by logout; and
after a new login by the same user the newly issued refresh token
succeeds, while the pre-logout token keeps failing PROVIDED the new
login issued a distinct token string (it reissues the identical string
when it happens at the very second the old token's expiry was computed
from — the counterexample). -/
theorem logout_revokes_refresh_tokens (db : DB) (uid : Nat) (s : String) (e : Nat)
    (hwf : refreshStoreWF db)
    (hs : intOfString? s = some uid) :
    (∀ r ∈ (logoutOp db uid).refresh_tokens, r.user_id ≠ uid) ∧
    (∀ now, refresh_tokenOp (logoutOp db uid) (TokenStr.signed ⟨some s, e⟩) now =
      (ROut.unauthorized, logoutOp db uid)) ∧
    (∀ t now, getCurrentUser (logoutOp db uid) t now = getCurrentUser db t now) ∧
    (∀ identifier password now2 u,
      loginLookup (logoutOp db uid) identifier = some u → u.id = uid →
      verify_password password u.password_hash = .ok true →
      intOfString? (toString uid) = some uid →
      ((loginOp (logoutOp db uid) identifier password now2).1 =
        LoginOut.ok (create_access_token (some (toString uid)) now2)
          (create_refresh_token (some (toString uid)) now2)) ∧
      (∀ now3, now3 < now2 + REFRESH_TTL →
        ∃ a2 rt2 db3,
          refresh_tokenOp (loginOp (logoutOp db uid) identifier password now2).2
            (create_refresh_token (some (toString uid)) now2) now3 = (ROut.ok a2 rt2, db3)) ∧
      (create_refresh_token (some (toString uid)) now2 ≠ TokenStr.signed ⟨some s, e⟩ →
        ∀ now4, (refresh_tokenOp (loginOp (logoutOp db uid) identifier password now2).2
            (TokenStr.signed ⟨some s, e⟩) now4).1 = ROut.unauthorized)) := by
  have hout : ∀ r ∈ (logoutOp db uid).refresh_tokens,
      r ∈ db.refresh_tokens ∧ r.user_id ≠ uid := by
    intro r hr
    simp only [logoutOp, deleteAllRefreshForUser, List.mem_filter,
      decide_eq_true_eq] at hr
    exact hr
  have hnotok : ∀ r ∈ (logoutOp db uid).refresh_tokens,
      r.token ≠ TokenStr.signed ⟨some s, e⟩ := by
    intro r hr htk
    obtain ⟨hmem, hne⟩ := hout r hr
    obtain ⟨s2, e2, hshape, hnum⟩ := hwf r hmem
    rw [htk] at hshape
    have hse : s2 = s := by
      injection hshape with hcl
      injection hcl with hsub hexp
      injection hsub with hss
      exact hss.symm
    rw [hse, hs] at hnum
    exact hne (Option.some.inj hnum).symm
  refine ⟨fun r hr => (hout r hr).2, ?_, ?_, ?_⟩
  · intro now
    apply refresh_unauthorized_of_find_none
    apply findValidRefresh_eq_none
    intro r hr hp
    exact hnotok r hr hp.1
  · intro t now
    rfl
  · intro identifier password now2 u hlk hid hver hparse
    subst hid
    have hlogin : loginOp (logoutOp db u.id) identifier password now2 =
        (LoginOut.ok (create_access_token (some (toString u.id)) now2)
          (create_refresh_token (some (toString u.id)) now2),
         insertRefresh (logoutOp db u.id) u.id
           (create_refresh_token (some (toString u.id)) now2) (now2 + REFRESH_TTL)) := by
      unfold loginOp
      rw [hlk]
      simp only [hver]
    refine ⟨by rw [hlogin], ?_, ?_⟩
    · intro now3 hn3
      rw [hlogin]
      have hdec : jwtDecode (create_refresh_token (some (toString u.id)) now2) now3 =
          .ok ⟨some (toString u.id), now2 + REFRESH_TTL⟩ := by
        simp only [create_refresh_token, mkToken, jwtDecode]
        rw [if_neg (not_lt.mpr (le_of_lt hn3))]
      cases hf : findValidRefresh
          (insertRefresh (logoutOp db u.id) u.id
            (create_refresh_token (some (toString u.id)) now2) (now2 + REFRESH_TTL))
          (create_refresh_token (some (toString u.id)) now2) now3 with
      | none =>
        exfalso
        have hall := List.find?_eq_none.mp hf
          ⟨(logoutOp db u.id).nextRtId, u.id,
            create_refresh_token (some (toString u.id)) now2, now2 + REFRESH_TTL⟩
          (by simp [insertRefresh])
        simp only [decide_eq_true_eq] at hall
        exact hall ⟨trivial, hn3⟩
      | some rec =>
        exact ⟨_, _, _, refresh_ok_eq hdec hf hparse⟩
    · intro hne now4
      rw [hlogin]
      have hnone : findValidRefresh
          (insertRefresh (logoutOp db u.id) u.id
            (create_refresh_token (some (toString u.id)) now2) (now2 + REFRESH_TTL))
          (TokenStr.signed ⟨some s, e⟩) now4 = none := by
        apply findValidRefresh_eq_none
        intro r hr hp
        simp only [insertRefresh, List.mem_append, List.mem_singleton] at hr
        rcases hr with hr | hr
        · exact hnotok r hr hp.1
        · rw [hr] at hp
          exact hne hp.1
      rw [refresh_unauthorized_of_find_none hnone]

/-- Witness for the C6 amended theorem: after logout every stored token
of the user is rejected. -/
theorem logout_revokes_refresh_tokens_witness :
    refresh_tokenOp (logoutOp dbC10 1) (TokenStr.signed ⟨some "1", 5000⟩) 100 =
      (ROut.unauthorized, logoutOp dbC10 1) :=
  (logout_revokes_refresh_tokens dbC10 1 "1" 5000
      (by
        intro r hr
        simp only [dbC10, List.mem_singleton] at hr
        subst hr
        exact ⟨"1", 5000, rfl, by decide⟩)
      (by decide)).2.1 100

/-- C2: the handlers are not atomic. Each database call is an awaited
suspension point, so the schedule [A reads, B reads, A writes, B writes]
is realizable for two concurrent requests A and B. For refresh_token the
read is findValidRefresh and the writes are refreshContinue (its
unconditional delete-by-id then insert); for verify_otp the read is
selectValidOTP and the writes are verifyContinue (its unconditional
mark-used update). Under that schedule both redemptions of the same
refresh token succeed, and both verifications of the same OTP row
succeed — contradicting exactly-one-succeeds. (B runs one second after
A, so B's insert carries a different token string and the UNIQUE
constraint on refresh_tokens.token is not violated.) -/
theorem concurrent_redemptions_both_succeed :
    findValidRefresh dbC2r (TokenStr.signed ⟨some "1", 5000⟩) 2000 = some recC2 ∧
    findValidRefresh dbC2r (TokenStr.signed ⟨some "1", 5000⟩) 2001 = some recC2 ∧
    (refreshContinue dbC2r (some "1") recC2 2000).1 =
      ROut.ok (TokenStr.signed ⟨some "1", 2000 + ACCESS_TTL⟩)
        (TokenStr.signed ⟨some "1", 2000 + REFRESH_TTL⟩) ∧
    (refreshContinue (refreshContinue dbC2r (some "1") recC2 2000).2
        (some "1") recC2 2001).1 =
      ROut.ok (TokenStr.signed ⟨some "1", 2001 + ACCESS_TTL⟩)
        (TokenStr.signed ⟨some "1", 2001 + REFRESH_TTL⟩) ∧
    selectValidOTP dbC2o 1 "123456" "email" 10 = some otpC2 ∧
    selectValidOTP dbC2o 1 "123456" "email" 11 = some otpC2 ∧
    (verifyContinue dbC2o aliceC7 otpC2 "email" 10).1 =
      VerifyOut.ok (TokenStr.signed ⟨some "1", 10 + ACCESS_TTL⟩)
        (TokenStr.signed ⟨some "1", 10 + REFRESH_TTL⟩) ∧
    (verifyContinue (verifyContinue dbC2o aliceC7 otpC2 "email" 10).2
        aliceC7 otpC2 "email" 11).1 =
      VerifyOut.ok (TokenStr.signed ⟨some "1", 11 + ACCESS_TTL⟩)
        (TokenStr.signed ⟨some "1", 11 + REFRESH_TTL⟩) := by
  refine ⟨by decide, by decide, by decide, by decide, by decide, by decide,
    by decide, by decide⟩

end AuthService
